import Mathlib

/-!
Verification development for `custom_components/proximity` (`src/proximity.py`).

The component monitors proximity of tracked devices to a zone.  The decision
core is the event callback `check_proximity_dev_state_change` defined inside
`setup` (src/proximity.py lines 108-250).  We embed it shallowly:

* A Home Assistant `State` object becomes `PyState`: its `.state` string and
  the three attributes the code reads (`friendly_name`, `latitude`,
  `longitude`), each optional because the attribute dictionary may lack them.
* `hass.states.get` becomes a function `String → Option PyState` (`none`
  models an entity with no state object; dereferencing it raises).
* The external great-circle helper `homeassistant.util.location.distance` is
  not part of this repository, so the embedding takes it as an explicit
  function parameter `dist : ℚ → ℚ → ℚ → ℚ → ℚ` (meters).  Calling it with a
  `None` coordinate raises `TypeError` in Python; `callDist` models that.
* Python floats are modelled as exact rationals; `round(x, 1)` is modelled by
  `pyRound1` (round half to even, as Python's `round` on exact values).
* Fallible evaluation returns `Except String EvalOut`; `Except.error`
  models an uncaught Python exception, named after the exception class.
* A `hass.states.set` publication of the proximity entity becomes
  `EvalOut.published = some r`; the `else` branch at line 250, which performs
  no `hass.states.set` call and therefore leaves the previously published
  entity untouched, becomes `EvalOut.published = none`.
-/

/-- One Home Assistant device `State` as read by the code: the `.state`
string plus the attributes accessed in `check_proximity_dev_state_change`
(`friendly_name` line 110, `latitude`/`longitude` lines 147-149, 164-167,
196-198).  An absent dictionary key is `none`. -/
structure PyState where
  state : String
  friendlyName : Option String
  latitude : Option ℚ
  longitude : Option ℚ
deriving DecidableEq

/-- The configuration closed over by `check_proximity_dev_state_change`
(src lines 54-89): the tracked device list, the override zone names, the
monitored zone name `config[DOMAIN]['zone']`, the zone coordinates read by
`state.attributes.get` (lines 87-88, hence optional), and the tolerance. -/
structure Config where
  proximityDevices : List String
  overrideZones : List String
  zoneName : String
  proximityLatitude : Option ℚ
  proximityLongitude : Option ℚ
  tolerance : ℚ
deriving DecidableEq

/-- The attribute triple written by `hass.states.set` (lines 237-248):
`dist_from_zone`, `dir_of_travel`, `nearest_device`. -/
structure ProximityResult where
  distFromZone : ℚ
  dirOfTravel : String
  nearestDevice : String
deriving DecidableEq

/-- Everything observable about one run of the callback: the publication (if
any) plus the local variables the code logs at lines 229-235. -/
structure EvalOut where
  published : Option ProximityResult
  someoneIsHome : Bool
  deviceInOverrideZone : Bool
  deviceIsClosest : Bool
  devicesCompared : ℕ
  distanceFromZone : ℚ
  directionOfTravel : String
deriving DecidableEq

instance {ε α : Type} [DecidableEq ε] [DecidableEq α] : DecidableEq (Except ε α) := fun x y =>
  match x, y with
  | Except.error a, Except.error b =>
    if h : a = b then Decidable.isTrue (h ▸ rfl)
    else Decidable.isFalse (fun hc => h (Except.error.inj hc))
  | Except.error _, Except.ok _ => Decidable.isFalse (fun hc => Except.noConfusion hc)
  | Except.ok _, Except.error _ => Decidable.isFalse (fun hc => Except.noConfusion hc)
  | Except.ok a, Except.ok b =>
    if h : a = b then Decidable.isTrue (h ▸ rfl)
    else Decidable.isFalse (fun hc => h (Except.ok.inj hc))

/-- Floor of a rational, computed by flooring integer division. -/
def ratFloor (q : ℚ) : ℤ := Int.fdiv q.num (q.den : ℤ)

/-- Round a rational to the nearest integer, halves to even: the behaviour of
Python 3's built-in `round` on exact values. -/
def roundHalfEven (q : ℚ) : ℤ :=
  let f := ratFloor q
  let r := q - (f : ℚ)
  if r < 1/2 then f
  else if 1/2 < r then f + 1
  else if f % 2 = 0 then f else f + 1

/-- Python's `round(x, 1)` as used at src lines 153, 167 and 205. -/
def pyRound1 (q : ℚ) : ℚ := ((roundHalfEven (10 * q) : ℤ) : ℚ) / 10

/-- A call `distance(zone_lat, zone_lon, lat, lon)` where the first two
arguments come from `state.attributes.get` and may be `None`; Python raises
`TypeError` when the haversine arithmetic hits `None`. -/
def callDist (dist : ℚ → ℚ → ℚ → ℚ → ℚ) :
    Option ℚ → Option ℚ → ℚ → ℚ → Except String ℚ
  | some zla, some zlo, la, lo => Except.ok (dist zla zlo la lo)
  | none, _, _, _ => Except.error "TypeError"
  | _, none, _, _ => Except.error "TypeError"

/-- Python equality between a device `State` object (or `None`) and a
zone-name string.  Src line 162 tests `device_state not in override_zones`,
i.e. the state OBJECT itself — not `device_state.state` — against the list of
zone-name strings; objects of distinct types never compare equal in Python,
so every such comparison is `False`. -/
def pyStateEqZoneName (_s : Option PyState) (_z : String) : Bool :=
  false

/-- Python membership `device_state in override_zones` for a `State` object
(src line 162): element-wise equality against the string list. -/
def pyStateMemOverride (s : Option PyState) (zs : List String) : Bool :=
  zs.any (pyStateEqZoneName s)

/-- Src line 108/110: the callback dereferences `new_state.attributes`
unconditionally, so a `None` new state raises `AttributeError` at once. -/
def getNewSt (newState : Option PyState) : Except String PyState :=
  match newState with
  | none => Except.error "AttributeError"
  | some ns => Except.ok ns

/-- Src line 110: `new_state.attributes['friendly_name']`; a missing key
raises `KeyError`. -/
def getEntityName (ns : PyState) : Except String String :=
  match ns.friendlyName with
  | none => Except.error "KeyError"
  | some nm => Except.ok nm

/-- The loop at src lines 131-134: for each tracked device fetch its state
(`hass.states.get`) and compare `.state` with the monitored zone name.  A
device with no state object makes `device_state.state` raise
`AttributeError`. -/
def someoneHomeFold (cfg : Config) (states : String → Option PyState) :
    Bool → List String → Except String Bool
  | acc, [] => Except.ok acc
  | acc, d :: ds =>
    match states d with
    | none => Except.error "AttributeError"
    | some s => someoneHomeFold cfg states (acc || (s.state == cfg.zoneName)) ds

/-- The value of someone_is_home after the loop at src lines 131-134. -/
def someoneHome (cfg : Config) (states : String → Option PyState) :
    Except String Bool :=
  someoneHomeFold cfg states false cfg.proximityDevices

/-- Src lines 143-154: `distance_from_zone` stays at its default `0` (line
127) unless both `latitude` and `longitude` are attribute keys of the new
state, in which case it becomes the rounded distance in kilometres. -/
def computeDistanceFromZone (cfg : Config) (dist : ℚ → ℚ → ℚ → ℚ → ℚ)
    (ns : PyState) : Except String ℚ :=
  match ns.latitude, ns.longitude with
  | some la, some lo =>
    match callDist dist cfg.proximityLatitude cfg.proximityLongitude la lo with
    | Except.error e => Except.error e
    | Except.ok d => Except.ok (pyRound1 (d / 1000))
  | _, _ => Except.ok 0

/-- One iteration of the peer loop at src lines 157-185, updating the pair
`(device_is_closest_to_home, devices_compared)`.  Mirrors the source
faithfully: the flag is OVERWRITTEN by each comparison (lines 170-181), the
override test compares the state object against strings (line 162), and a
peer with no state object raises at `device_state.attributes` (line 164). -/
def comparePeer (cfg : Config) (dist : ℚ → ℚ → ℚ → ℚ → ℚ)
    (states : String → Option PyState) (entity : String) (dfz : ℚ)
    (acc : Bool × ℕ) (device : String) : Except String (Bool × ℕ) :=
  if device == entity then Except.ok acc
  else if pyStateMemOverride (states device) cfg.overrideZones then Except.ok acc
  else
    match states device with
    | none => Except.error "AttributeError"
    | some st =>
      match st.latitude, st.longitude with
      | some la, some lo =>
        match callDist dist cfg.proximityLatitude cfg.proximityLongitude la lo with
        | Except.error e => Except.error e
        | Except.ok cd =>
          let compareDfz := pyRound1 (cd / 1000)
          if dfz < compareDfz then Except.ok (true, acc.2 + 1)
          else if dfz > compareDfz then Except.ok (false, acc.2 + 1)
          else Except.ok (false, acc.2 + 1)
      | _, _ => Except.ok acc

/-- Fold of `comparePeer` over a device list, propagating exceptions. -/
def peerFold (cfg : Config) (dist : ℚ → ℚ → ℚ → ℚ → ℚ)
    (states : String → Option PyState) (entity : String) (dfz : ℚ) :
    (Bool × ℕ) → List String → Except String (Bool × ℕ)
  | acc, [] => Except.ok acc
  | acc, d :: ds =>
    match comparePeer cfg dist states entity dfz acc d with
    | Except.error e => Except.error e
    | Except.ok acc2 => peerFold cfg dist states entity dfz acc2 ds

/-- The whole peer loop at src lines 157-185, started from the defaults
`device_is_closest_to_home = False`, `devices_compared = 0` (lines 125-126). -/
def peerLoop (cfg : Config) (dist : ℚ → ℚ → ℚ → ℚ → ℚ)
    (states : String → Option PyState) (entity : String) (dfz : ℚ) :
    Except String (Bool × ℕ) :=
  peerFold cfg dist states entity dfz (false, 0) cfg.proximityDevices

/-- The classification at src lines 209-216 applied to an already computed
`distance_travelled` value. -/
def directionFromDelta (tolerance delta : ℚ) : String :=
  if delta ≤ tolerance * (-1) then "towards"
  else if delta > tolerance then "away_from"
  else "cannot_calculate"

/-- Src lines 188-223: `direction_of_travel` keeps its default `'not set'`
(line 129) unless the closest-guard at line 188 holds; then it is computed
from the previous and current samples, degrading to `'Unknown'` when either
is missing (lines 220, 223). -/
def computeDirection (cfg : Config) (dist : ℚ → ℚ → ℚ → ℚ → ℚ)
    (oldState : Option PyState) (newLat newLon : Option ℚ)
    (closest : Bool) (compared : ℕ) : Except String String :=
  if closest || (compared == 0) then
    match oldState, newLat, newLon with
    | some os, some nla, some nlo =>
      match os.latitude, os.longitude with
      | some ola, some olo =>
        match callDist dist cfg.proximityLatitude cfg.proximityLongitude ola olo with
        | Except.error e => Except.error e
        | Except.ok oldD =>
          match callDist dist cfg.proximityLatitude cfg.proximityLongitude nla nlo with
          | Except.error e => Except.error e
          | Except.ok newD =>
            Except.ok (directionFromDelta cfg.tolerance (pyRound1 (newD - oldD)))
      | _, _ => Except.ok "Unknown"
    | _, _, _ => Except.ok "Unknown"
  else Except.ok "not set"

/-- The publication decision at src lines 237-250 for the case
`someone_is_home == False` (the `True` case is handled before): line 241
publishes when the device is not in an override zone and no peer was
compared; line 245 publishes when the closest flag ended true; line 250
performs no `hass.states.set` call, leaving the previous entity untouched
(`none`). -/
def publish (inOverride closest : Bool) (compared : ℕ) (dfz : ℚ)
    (dir name : String) : Option ProximityResult :=
  if !inOverride && (compared == 0) then some ⟨dfz, dir, name⟩
  else if closest then some ⟨dfz, dir, name⟩
  else none

/-- The event callback `check_proximity_dev_state_change` (src lines
108-250), assembled from the stage functions above in source order: read the
friendly name (110), run the occupancy loop (131-134), test the new state
against the override zones (136), then — when nobody is home — compute the
distance (143-154), run the peer loop (157-185), resolve the direction of
travel (188-223) and publish (237-250). -/
def check_proximity_dev_state_change (cfg : Config)
    (dist : ℚ → ℚ → ℚ → ℚ → ℚ) (states : String → Option PyState)
    (entity : String) (oldState newState : Option PyState) :
    Except String EvalOut :=
  match getNewSt newState with
  | Except.error e => Except.error e
  | Except.ok ns =>
    match getEntityName ns with
    | Except.error e => Except.error e
    | Except.ok entityName =>
      match someoneHome cfg states with
      | Except.error e => Except.error e
      | Except.ok home =>
        let inOverride := cfg.overrideZones.contains ns.state
        if home then
          Except.ok { published := some ⟨0, "arrived", "not_applicable"⟩,
                      someoneIsHome := true, deviceInOverrideZone := inOverride,
                      deviceIsClosest := false, devicesCompared := 0,
                      distanceFromZone := 0, directionOfTravel := "not set" }
        else
          match computeDistanceFromZone cfg dist ns with
          | Except.error e => Except.error e
          | Except.ok dfz =>
            match peerLoop cfg dist states entity dfz with
            | Except.error e => Except.error e
            | Except.ok p =>
              match computeDirection cfg dist oldState ns.latitude ns.longitude p.1 p.2 with
              | Except.error e => Except.error e
              | Except.ok dir =>
                Except.ok { published := publish inOverride p.1 p.2 dfz dir entityName,
                            someoneIsHome := false, deviceInOverrideZone := inOverride,
                            deviceIsClosest := p.1, devicesCompared := p.2,
                            distanceFromZone := dfz, directionOfTravel := dir }

/-- The `Proximity` entity class (src lines 257-293); the three constructor
arguments are stored in `_dist_from`, `_dir_of_travel`, `_nearest_device`.
The stored values are dynamically typed, hence the type parameter. -/
structure Proximity (α : Type) where
  dist_from_val : α
  dir_of_travel_val : α
  nearest_device_val : α
deriving DecidableEq

/-- The `state` property (src lines 269-271): returns `self._dist_from`. -/
def Proximity.state {α : Type} (p : Proximity α) : α := p.dist_from_val

/-- The `direction_of_travel` property (src lines 283-285): returns
`self._dist_from`. -/
def Proximity.direction_of_travel {α : Type} (p : Proximity α) : α :=
  p.dist_from_val

/-- The `distance_from_zone` property (src lines 287-289): returns
`self._dist_from`. -/
def Proximity.distance_from_zone {α : Type} (p : Proximity α) : α :=
  p.dist_from_val

/-- The `nearest_device` property (src lines 291-293): returns
`self._dist_from`. -/
def Proximity.nearest_device {α : Type} (p : Proximity α) : α :=
  p.dist_from_val

/-! ### Auxiliary definitions and concrete test inputs

The `testDist` function stands in for the external `distance` helper on the
concrete inputs below: one unit of latitude or longitude counts as one metre
from the zone, so a device whose latitude is `5000` (longitude `0`) is
5000 m from a zone placed at the origin. -/

/-- Whether the state registry reports device `d` as being in zone `z`: the
per-device test of the loop at src lines 131-134. -/
def reportsZone (states : String → Option PyState) (z d : String) : Bool :=
  match states d with
  | some s => s.state == z
  | none => false

def testDist (lat1 lon1 lat2 lon2 : ℚ) : ℚ := (lat2 - lat1) + (lon2 - lon1)

/-- Zone `home` at the origin, three devices, no override zones. -/
def cfgC1 : Config :=
  { proximityDevices := ["a", "b1", "b2"], overrideZones := [],
    zoneName := "home", proximityLatitude := some 0, proximityLongitude := some 0,
    tolerance := 50 }

/-- The current sample of device `a`: 5000 m from the zone, not in any
zone. -/
def nsC1 : PyState := ⟨"not_home", some "A", some 5000, some 0⟩

/-- Device `a` and peer `b1` both 5000 m from the zone (a tie); peer `b2`
10000 m away.  Nobody in the zone. -/
def statesC1 : String → Option PyState := fun d =>
  if d = "a" then some nsC1
  else if d = "b1" then some ⟨"not_home", some "B1", some 5000, some 0⟩
  else if d = "b2" then some ⟨"not_home", some "B2", some 10000, some 0⟩
  else none

/-- A previous sample of device `a` at 10000 m, used when a direction of
travel is wanted. -/
def oldC8 : PyState := ⟨"not_home", some "A", some 10000, some 0⟩

/-- The outcome of the C8 counterexample evaluation. -/
def outC8 : EvalOut :=
  { published := some ⟨5, "towards", "A"⟩, someoneIsHome := false,
    deviceInOverrideZone := false, deviceIsClosest := true,
    devicesCompared := 2, distanceFromZone := 5,
    directionOfTravel := "towards" }

/-- Zone `home` at the origin, two devices, override zone `work`. -/
def cfgC3 : Config :=
  { proximityDevices := ["a", "b"], overrideZones := ["work"],
    zoneName := "home", proximityLatitude := some 0, proximityLongitude := some 0,
    tolerance := 50 }

/-- Peer `b` reports zone `work` (an override zone) from 1000 m away; device
`a` is 5000 m away and not in any zone. -/
def statesC3 : String → Option PyState := fun d =>
  if d = "a" then some ⟨"not_home", some "A", some 5000, some 0⟩
  else if d = "b" then some ⟨"work", some "B", some 1000, some 0⟩
  else none

/-- A single tracked device and override zone `work`. -/
def cfgC5 : Config :=
  { proximityDevices := ["a"], overrideZones := ["work"],
    zoneName := "home", proximityLatitude := some 0, proximityLongitude := some 0,
    tolerance := 50 }

/-- The only device reports the override zone `work`, 5000 m from the zone. -/
def statesC5 : String → Option PyState := fun d =>
  if d = "a" then some ⟨"work", some "A", some 5000, some 0⟩ else none

/-- Previous sample of the single device at 10000 m. -/
def oldC5 : PyState := ⟨"not_home", some "A", some 10000, some 0⟩

/-- A single tracked device, no override zones. -/
def cfgC6 : Config :=
  { proximityDevices := ["a"], overrideZones := [],
    zoneName := "home", proximityLatitude := some 0, proximityLongitude := some 0,
    tolerance := 50 }

/-- A device state with no latitude/longitude attributes. -/
def nsC6 : PyState := ⟨"not_home", some "A", none, none⟩

/-- The only device has no latitude/longitude attributes. -/
def statesC6 : String → Option PyState := fun d =>
  if d = "a" then some nsC6 else none

/-- Zone `home` occupied: the single tracked device reports `home`. -/
def cfgW2 : Config :=
  { proximityDevices := ["a"], overrideZones := ["work"],
    zoneName := "home", proximityLatitude := some 0, proximityLongitude := some 0,
    tolerance := 50 }

/-- The updated device reports the monitored zone itself. -/
def nsW2 : PyState := ⟨"home", some "A", some 5000, some 0⟩

def statesW2 : String → Option PyState := fun d => if d = "a" then some nsW2 else none

/-- A single tracked device in no zone, 5000 m out, override zone `work`
not currently reported. -/
def cfgW5 : Config :=
  { proximityDevices := ["a"], overrideZones := ["work"],
    zoneName := "home", proximityLatitude := some 0, proximityLongitude := some 0,
    tolerance := 50 }

def nsW5 : PyState := ⟨"not_home", some "A", some 5000, some 0⟩

def statesW5 : String → Option PyState := fun d => if d = "a" then some nsW5 else none

/-- Two devices: the peer `b` is closer to the zone than the updated `a`. -/
def cfgW7 : Config :=
  { proximityDevices := ["a", "b"], overrideZones := [],
    zoneName := "home", proximityLatitude := some 0, proximityLongitude := some 0,
    tolerance := 50 }

def nsW7 : PyState := ⟨"not_home", some "A", some 5000, some 0⟩

def statesW7 : String → Option PyState := fun d =>
  if d = "a" then some nsW7
  else if d = "b" then some ⟨"not_home", some "B", some 1000, some 0⟩
  else none

/-! ### Helper lemmas -/

theorem ratFloor_intCast (n : ℤ) : ratFloor (n : ℚ) = n := by
  simp [ratFloor, Rat.num_intCast, Rat.den_intCast, Int.fdiv_one]

theorem roundHalfEven_intCast (n : ℤ) : roundHalfEven (n : ℚ) = n := by
  unfold roundHalfEven
  rw [ratFloor_intCast]
  norm_num

/-- Rounding to one decimal is the identity on integer-valued rationals. -/
theorem pyRound1_int (n : ℤ) : pyRound1 (n : ℚ) = (n : ℚ) := by
  unfold pyRound1
  have h : (10 : ℚ) * (n : ℚ) = ((10 * n : ℤ) : ℚ) := by push_cast; ring
  rw [h, roundHalfEven_intCast]
  push_cast
  field_simp

/-- The object-versus-string membership test at src line 162 is always
false, so no peer is ever skipped as being in an override zone. -/
theorem pyStateMemOverride_false (s : Option PyState) (zs : List String) :
    pyStateMemOverride s zs = false := by
  simp [pyStateMemOverride, pyStateEqZoneName]

theorem someoneHomeFold_ok (cfg : Config) (states : String → Option PyState)
    (l : List String) (b : Bool)
    (hall : l.all (fun d => (states d).isSome) = true) :
    someoneHomeFold cfg states b l =
      Except.ok (b || l.any (reportsZone states cfg.zoneName)) := by
  induction l generalizing b with
  | nil => simp [someoneHomeFold]
  | cons d ds ih =>
    simp only [List.all_cons, Bool.and_eq_true] at hall
    obtain ⟨hd, hds⟩ := hall
    obtain ⟨s, hs⟩ := Option.isSome_iff_exists.mp hd
    simp only [someoneHomeFold, hs, ih _ hds, List.any_cons, reportsZone, Bool.or_assoc]

/-- A directed label can only come out of the branch that requires the
closest-guard, a previous state with both coordinates, and both current
coordinates. -/
theorem computeDirection_directed (cfg : Config) (dist : ℚ → ℚ → ℚ → ℚ → ℚ)
    (oldState : Option PyState) (nla nlo : Option ℚ) (cl : Bool) (n : ℕ) (dir : String)
    (h : computeDirection cfg dist oldState nla nlo cl n = Except.ok dir)
    (hd : dir = "towards" ∨ dir = "away_from") :
    (cl = true ∨ n = 0) ∧ nla.isSome = true ∧ nlo.isSome = true ∧
      ∃ os, oldState = some os ∧ os.latitude.isSome = true ∧
        os.longitude.isSome = true := by
  have hne : dir ≠ "Unknown" ∧ dir ≠ "not set" := by
    rcases hd with h1 | h1 <;> subst h1 <;> exact ⟨by decide, by decide⟩
  by_cases hg : (cl || (n == 0)) = true
  · have hguard : cl = true ∨ n = 0 := by
      cases cl
      · simp only [Bool.false_or] at hg
        exact Or.inr (by simpa using hg)
      · exact Or.inl rfl
    rcases oldState with _ | ⟨st, fn, ola, olo⟩
    · rw [computeDirection.eq_def, if_pos hg] at h
      exact absurd (Except.ok.inj h).symm hne.1
    · rcases nla with _ | la
      · rw [computeDirection.eq_def, if_pos hg] at h
        exact absurd (Except.ok.inj h).symm hne.1
      · rcases nlo with _ | lo
        · rw [computeDirection.eq_def, if_pos hg] at h
          exact absurd (Except.ok.inj h).symm hne.1
        · rcases ola with _ | ola
          · rw [computeDirection.eq_def, if_pos hg] at h
            exact absurd (Except.ok.inj h).symm hne.1
          · rcases olo with _ | olo
            · rw [computeDirection.eq_def, if_pos hg] at h
              exact absurd (Except.ok.inj h).symm hne.1
            · exact ⟨hguard, rfl, rfl, ⟨st, fn, some ola, some olo⟩, rfl, rfl, rfl⟩
  · rw [computeDirection.eq_def, if_neg hg] at h
    exact absurd (Except.ok.inj h).symm hne.2

theorem pyRound1_testDist_5000 : pyRound1 (testDist 0 0 5000 0 / 1000) = 5 := by
  have h : testDist 0 0 5000 0 / 1000 = ((5 : ℤ) : ℚ) := by norm_num [testDist]
  rw [h, pyRound1_int]
  norm_num

theorem pyRound1_testDist_10000 : pyRound1 (testDist 0 0 10000 0 / 1000) = 10 := by
  have h : testDist 0 0 10000 0 / 1000 = ((10 : ℤ) : ℚ) := by norm_num [testDist]
  rw [h, pyRound1_int]
  norm_num

theorem pyRound1_testDist_1000 : pyRound1 (testDist 0 0 1000 0 / 1000) = 1 := by
  have h : testDist 0 0 1000 0 / 1000 = ((1 : ℤ) : ℚ) := by norm_num [testDist]
  rw [h, pyRound1_int]
  norm_num

theorem pyRound1_towards_delta :
    pyRound1 (testDist 0 0 5000 0 - testDist 0 0 10000 0) = -5000 := by
  have h : testDist 0 0 5000 0 - testDist 0 0 10000 0 = ((-5000 : ℤ) : ℚ) := by
    norm_num [testDist]
  rw [h, pyRound1_int]
  norm_num

theorem directionFromDelta_neg5000 : directionFromDelta 50 (-5000) = "towards" := by
  rw [directionFromDelta, if_pos (by norm_num)]

/-! ### The claims -/

/-- C1.  The claim says a tie with ANY compared peer means the updated
source is not considered closest, regardless of comparison order.  On this
input device `a` (5.0 km) ties with the first compared peer `b1` (also
5.0 km, second conjunct) and is strictly closer than the second peer `b2`
(10.0 km), yet the loop at src lines 157-181 overwrites the flag on each
iteration, so the evaluation ends with `device_is_closest_to_home = True`
and publishes a result for `a`. -/
theorem c1_tie_overwritten_by_later_peer :
    check_proximity_dev_state_change cfgC1 testDist statesC1 "a" none (statesC1 "a") =
      Except.ok { published := some ⟨5, "Unknown", "A"⟩, someoneIsHome := false,
                  deviceInOverrideZone := false, deviceIsClosest := true,
                  devicesCompared := 2, distanceFromZone := 5,
                  directionOfTravel := "Unknown" } ∧
    pyRound1 (testDist 0 0 5000 0 / 1000) = 5 := by
  constructor
  · simp +decide [check_proximity_dev_state_change, getNewSt, getEntityName, someoneHome,
      someoneHomeFold, computeDistanceFromZone, callDist, peerLoop, peerFold, comparePeer,
      pyStateMemOverride_false, computeDirection, publish, cfgC1, statesC1, nsC1,
      pyRound1_testDist_5000, pyRound1_testDist_10000]
  · exact pyRound1_testDist_5000

/-- C2.  Whenever the state registry has a state for every tracked device
and some tracked device (possibly the updated one) reports the monitored
zone, the evaluation publishes exactly distance `0`, direction `arrived`,
nearest device `not_applicable` — for every distance function, every set of
peer locations, every override-zone list and every tolerance. -/
theorem c2_any_source_home_publishes_arrived (cfg : Config)
    (dist : ℚ → ℚ → ℚ → ℚ → ℚ) (states : String → Option PyState)
    (entity : String) (oldState : Option PyState) (ns : PyState) (nm : String)
    (hnm : ns.friendlyName = some nm)
    (hall : cfg.proximityDevices.all (fun d => (states d).isSome) = true)
    (hany : cfg.proximityDevices.any (reportsZone states cfg.zoneName) = true) :
    check_proximity_dev_state_change cfg dist states entity oldState (some ns) =
      Except.ok { published := some ⟨0, "arrived", "not_applicable"⟩,
                  someoneIsHome := true,
                  deviceInOverrideZone := cfg.overrideZones.contains ns.state,
                  deviceIsClosest := false, devicesCompared := 0,
                  distanceFromZone := 0, directionOfTravel := "not set" } := by
  have hh : someoneHome cfg states = Except.ok true := by
    rw [someoneHome, someoneHomeFold_ok cfg states _ false hall, hany]
    rfl
  simp [check_proximity_dev_state_change, getNewSt, getEntityName, hnm, hh]

theorem c2_any_source_home_publishes_arrived_witness :
    check_proximity_dev_state_change cfgW2 testDist statesW2 "a" none (some nsW2) =
      Except.ok { published := some ⟨0, "arrived", "not_applicable"⟩,
                  someoneIsHome := true,
                  deviceInOverrideZone := cfgW2.overrideZones.contains nsW2.state,
                  deviceIsClosest := false, devicesCompared := 0,
                  distanceFromZone := 0, directionOfTravel := "not set" } :=
  c2_any_source_home_publishes_arrived cfgW2 testDist statesW2 "a" none nsW2 "A"
    rfl (by decide) (by decide)

/-- C3.  The claim says a peer whose reported zone is in the override-zone
set contributes neither a compared distance nor a `devices_compared`
increment.  Here peer `b` reports the override zone `work` (second
conjunct), yet the evaluation for `a` ends with `devices_compared = 1`:
the membership test at src line 162 compares the state object, not its
`.state` string, against the zone names, so it never excludes anything
(last conjunct). -/
theorem c3_override_zone_peer_still_compared :
    check_proximity_dev_state_change cfgC3 testDist statesC3 "a" none (statesC3 "a") =
      Except.ok { published := none, someoneIsHome := false,
                  deviceInOverrideZone := false, deviceIsClosest := false,
                  devicesCompared := 1, distanceFromZone := 5,
                  directionOfTravel := "not set" } ∧
    statesC3 "b" = some ⟨"work", some "B", some 1000, some 0⟩ ∧
    cfgC3.overrideZones = ["work"] ∧
    pyStateMemOverride (statesC3 "b") cfgC3.overrideZones = false := by
  refine ⟨?_, rfl, rfl, pyStateMemOverride_false _ _⟩
  simp +decide [check_proximity_dev_state_change, getNewSt, getEntityName, someoneHome,
    someoneHomeFold, computeDistanceFromZone, callDist, peerLoop, peerFold, comparePeer,
    pyStateMemOverride_false, computeDirection, publish, cfgC3, statesC3,
    pyRound1_testDist_5000, pyRound1_testDist_1000]

/-- C4.  The classification of the rounded displacement against a
non-negative tolerance: at most `-tolerance` means `towards`, strictly more
than `tolerance` means `away_from`, anything in between (excluding
`-tolerance`, including `tolerance`) means `cannot_calculate`; and on the
spec's concrete boundary cases with tolerance 50, deltas of `-60`, `-40`
and `+60` metres classify as `towards`, `cannot_calculate` and `away_from`
respectively. -/
theorem c4_direction_tolerance_classification (tol delta : ℚ) (htol : 0 ≤ tol) :
    ((delta ≤ -tol → directionFromDelta tol delta = "towards") ∧
     (tol < delta → directionFromDelta tol delta = "away_from") ∧
     (-tol < delta → delta ≤ tol → directionFromDelta tol delta = "cannot_calculate")) ∧
    directionFromDelta 50 (pyRound1 (940 - 1000)) = "towards" ∧
    directionFromDelta 50 (pyRound1 (960 - 1000)) = "cannot_calculate" ∧
    directionFromDelta 50 (pyRound1 (1060 - 1000)) = "away_from" := by
  refine ⟨⟨fun h => ?_, fun h => ?_, fun h1 h2 => ?_⟩, ?_, ?_, ?_⟩
  · rw [directionFromDelta, if_pos (by linarith)]
  · rw [directionFromDelta, if_neg (by intro hc; linarith), if_pos h]
  · rw [directionFromDelta, if_neg (by intro hc; linarith), if_neg (by intro hc; linarith)]
  · have h : (940 : ℚ) - 1000 = ((-60 : ℤ) : ℚ) := by norm_num
    rw [h, pyRound1_int, directionFromDelta, if_pos (by norm_num)]
  · have h : (960 : ℚ) - 1000 = ((-40 : ℤ) : ℚ) := by norm_num
    rw [h, pyRound1_int, directionFromDelta, if_neg (by norm_num), if_neg (by norm_num)]
  · have h : (1060 : ℚ) - 1000 = ((60 : ℤ) : ℚ) := by norm_num
    rw [h, pyRound1_int, directionFromDelta, if_neg (by norm_num), if_pos (by norm_num)]

theorem c4_direction_tolerance_classification_witness :
    (0 : ℚ) ≤ 50 ∧
    ((((-60 : ℚ) ≤ -50 → directionFromDelta 50 (-60) = "towards") ∧
      ((50 : ℚ) < -60 → directionFromDelta 50 (-60) = "away_from") ∧
      (-(50 : ℚ) < -60 → (-60 : ℚ) ≤ 50 → directionFromDelta 50 (-60) = "cannot_calculate")) ∧
     directionFromDelta 50 (pyRound1 (940 - 1000)) = "towards" ∧
     directionFromDelta 50 (pyRound1 (960 - 1000)) = "cannot_calculate" ∧
     directionFromDelta 50 (pyRound1 (1060 - 1000)) = "away_from") :=
  ⟨by norm_num, c4_direction_tolerance_classification 50 (-60) (by norm_num)⟩

/-- C5 counterexample.  One tracked device, so `devices_compared = 0`; the
claim says the result is then still computed and published.  On this input
the device reports the override zone `work`, and the condition at src line
241 (`not(device_in_override_zone)`) blocks the publication: the direction
is computed (`towards`) but `published = none`. -/
theorem c5_counterexample_override_not_published :
    check_proximity_dev_state_change cfgC5 testDist statesC5 "a" (some oldC5) (statesC5 "a") =
      Except.ok { published := none, someoneIsHome := false,
                  deviceInOverrideZone := true, deviceIsClosest := false,
                  devicesCompared := 0, distanceFromZone := 5,
                  directionOfTravel := "towards" } := by
  simp +decide [check_proximity_dev_state_change, getNewSt, getEntityName, someoneHome,
    someoneHomeFold, computeDistanceFromZone, callDist, peerLoop, peerFold, comparePeer,
    computeDirection, publish, cfgC5, statesC5, oldC5,
    pyRound1_testDist_5000, pyRound1_towards_delta, directionFromDelta_neg5000]

/-- C5 (amended).  When no peer was compared (`devices_compared = 0`), the
direction branch runs exactly as it would for the closest device (first
conjunct), and the evaluation publishes the computed result UNLESS the
updated source reports an override zone, in which case nothing is published
(second conjunct, the `not(device_in_override_zone)` condition at src line
241); a single tracked device always yields `devices_compared = 0` (third
conjunct). -/
theorem c5_no_peers_treated_closest_amended (cfg : Config)
    (dist : ℚ → ℚ → ℚ → ℚ → ℚ) (states : String → Option PyState)
    (entity : String) (oldState : Option PyState) (ns : PyState) (nm : String) (dfz : ℚ)
    (hnm : ns.friendlyName = some nm)
    (hhome : someoneHome cfg states = Except.ok false)
    (hdfz : computeDistanceFromZone cfg dist ns = Except.ok dfz)
    (hpeer : peerLoop cfg dist states entity dfz = Except.ok (false, 0)) :
    computeDirection cfg dist oldState ns.latitude ns.longitude false 0 =
      computeDirection cfg dist oldState ns.latitude ns.longitude true 0 ∧
    (∀ dir, computeDirection cfg dist oldState ns.latitude ns.longitude false 0 =
        Except.ok dir →
      check_proximity_dev_state_change cfg dist states entity oldState (some ns) =
        Except.ok { published := if cfg.overrideZones.contains ns.state then none
                                 else some ⟨dfz, dir, nm⟩,
                    someoneIsHome := false,
                    deviceInOverrideZone := cfg.overrideZones.contains ns.state,
                    deviceIsClosest := false, devicesCompared := 0,
                    distanceFromZone := dfz, directionOfTravel := dir }) ∧
    (∀ dfz2 : ℚ, cfg.proximityDevices = [entity] →
      peerLoop cfg dist states entity dfz2 = Except.ok (false, 0)) := by
  refine ⟨rfl, fun dir hdir => ?_, fun dfz2 he => ?_⟩
  · cases hov : cfg.overrideZones.contains ns.state <;>
      simp [check_proximity_dev_state_change, getNewSt, getEntityName, hnm, hhome, hdfz,
        hpeer, hdir, publish, hov] <;> simpa using hov
  · rw [peerLoop, he]
    simp [peerFold, comparePeer]

theorem c5_no_peers_treated_closest_amended_witness :
    computeDirection cfgW5 testDist none nsW5.latitude nsW5.longitude false 0 =
      computeDirection cfgW5 testDist none nsW5.latitude nsW5.longitude true 0 ∧
    (∀ dir, computeDirection cfgW5 testDist none nsW5.latitude nsW5.longitude false 0 =
        Except.ok dir →
      check_proximity_dev_state_change cfgW5 testDist statesW5 "a" none (some nsW5) =
        Except.ok { published := if cfgW5.overrideZones.contains nsW5.state then none
                                 else some ⟨5, dir, "A"⟩,
                    someoneIsHome := false,
                    deviceInOverrideZone := cfgW5.overrideZones.contains nsW5.state,
                    deviceIsClosest := false, devicesCompared := 0,
                    distanceFromZone := 5, directionOfTravel := dir }) ∧
    (∀ dfz2 : ℚ, cfgW5.proximityDevices = ["a"] →
      peerLoop cfgW5 testDist statesW5 "a" dfz2 = Except.ok (false, 0)) :=
  c5_no_peers_treated_closest_amended cfgW5 testDist statesW5 "a" none nsW5 "A" 5
    rfl rfl
    (by simp [computeDistanceFromZone, callDist, cfgW5, nsW5, pyRound1_testDist_5000])
    (by simp +decide [peerLoop, peerFold, comparePeer, cfgW5])

/-- C6 counterexample.  The updated device has no location attributes and
nobody is home; the claim says the published distance stays an unset
sentinel (not a number such as 0) and the direction is `unknown`.  The code
publishes the numeric default `0` (src lines 127, 242-243) with direction
`Unknown` (line 223). -/
theorem c6_counterexample_unknown_location_publishes_zero :
    check_proximity_dev_state_change cfgC6 testDist statesC6 "a" none (statesC6 "a") =
      Except.ok { published := some ⟨0, "Unknown", "A"⟩, someoneIsHome := false,
                  deviceInOverrideZone := false, deviceIsClosest := false,
                  devicesCompared := 0, distanceFromZone := 0,
                  directionOfTravel := "Unknown" } := by
  simp +decide [check_proximity_dev_state_change, getNewSt, getEntityName, someoneHome,
    someoneHomeFold, computeDistanceFromZone, callDist, peerLoop, peerFold, comparePeer,
    computeDirection, publish, cfgC6, statesC6, nsC6]

/-- C6 (amended).  When the updated source has no location attributes and
nobody is home, `distance_from_zone` keeps its numeric default `0` — which
is what the peer comparisons then use — and whenever a result is published
it carries distance `0` and direction `Unknown` (capitalised, src lines
220/223), not an unset sentinel. -/
theorem c6_unknown_location_amended (cfg : Config) (dist : ℚ → ℚ → ℚ → ℚ → ℚ)
    (states : String → Option PyState) (entity : String) (oldState : Option PyState)
    (ns : PyState) (nm : String) (cl : Bool) (n : ℕ)
    (hnm : ns.friendlyName = some nm)
    (hlat : ns.latitude = none) (hlon : ns.longitude = none)
    (hhome : someoneHome cfg states = Except.ok false)
    (hpeer : peerLoop cfg dist states entity 0 = Except.ok (cl, n)) :
    computeDistanceFromZone cfg dist ns = Except.ok 0 ∧
    ∃ out, check_proximity_dev_state_change cfg dist states entity oldState (some ns) =
        Except.ok out ∧ out.distanceFromZone = 0 ∧
      ∀ r, out.published = some r → r.distFromZone = 0 ∧ r.dirOfTravel = "Unknown" := by
  have hdfz : computeDistanceFromZone cfg dist ns = Except.ok 0 := by
    rw [computeDistanceFromZone.eq_def, hlat]
  have hdir : computeDirection cfg dist oldState ns.latitude ns.longitude cl n =
      Except.ok (if (cl || (n == 0)) = true then "Unknown" else "not set") := by
    rw [computeDirection.eq_def, hlat]
    by_cases hg : (cl || (n == 0)) = true
    · rw [if_pos hg, if_pos hg]
      rcases oldState with _ | os
      · rfl
      · rfl
    · rw [if_neg hg, if_neg hg]
  refine ⟨hdfz,
    ⟨{ published := publish (cfg.overrideZones.contains ns.state) cl n 0
          (if (cl || (n == 0)) = true then "Unknown" else "not set") nm,
       someoneIsHome := false,
       deviceInOverrideZone := cfg.overrideZones.contains ns.state,
       deviceIsClosest := cl, devicesCompared := n,
       distanceFromZone := 0,
       directionOfTravel := if (cl || (n == 0)) = true then "Unknown" else "not set" },
     ?_, rfl, ?_⟩⟩
  · simp [check_proximity_dev_state_change, getNewSt, getEntityName, hnm, hhome, hdfz,
      hpeer, hdir]
  · intro r hr
    replace hr : publish (cfg.overrideZones.contains ns.state) cl n 0
        (if (cl || (n == 0)) = true then "Unknown" else "not set") nm = some r := hr
    rw [publish] at hr
    by_cases h1 : (!(cfg.overrideZones.contains ns.state) && (n == 0)) = true
    · rw [if_pos h1] at hr
      obtain rfl := (Option.some.inj hr).symm
      refine ⟨rfl, ?_⟩
      have h1c := h1
      rw [Bool.and_eq_true] at h1c
      have hn0 : (n == 0) = true := h1c.2
      show (if (cl || (n == 0)) = true then "Unknown" else "not set") = "Unknown"
      rw [hn0, if_pos (by simp)]
    · rw [if_neg h1] at hr
      by_cases h2 : cl = true
      · rw [if_pos h2] at hr
        obtain rfl := (Option.some.inj hr).symm
        refine ⟨rfl, ?_⟩
        show (if (cl || (n == 0)) = true then "Unknown" else "not set") = "Unknown"
        rw [h2, if_pos (by simp)]
      · rw [if_neg h2] at hr
        exact absurd hr (by simp)

theorem c6_unknown_location_amended_witness :
    computeDistanceFromZone cfgC6 testDist nsC6 = Except.ok 0 ∧
    ∃ out, check_proximity_dev_state_change cfgC6 testDist statesC6 "a" none (some nsC6) =
        Except.ok out ∧ out.distanceFromZone = 0 ∧
      ∀ r, out.published = some r → r.distFromZone = 0 ∧ r.dirOfTravel = "Unknown" :=
  c6_unknown_location_amended cfgC6 testDist statesC6 "a" none nsC6 "A" false 0
    rfl rfl rfl rfl
    (by simp +decide [peerLoop, peerFold, comparePeer, cfgC6])

/-- C7.  When nobody is home, at least one peer was compared and the
closest flag ended `False`, none of the publication branches fires: the
evaluation performs no `hass.states.set` call (`published = none`, src line
250), leaving the previously published proximity entity untouched. -/
theorem c7_not_closest_is_noop (cfg : Config) (dist : ℚ → ℚ → ℚ → ℚ → ℚ)
    (states : String → Option PyState) (entity : String) (oldState : Option PyState)
    (ns : PyState) (nm : String) (dfz : ℚ) (n : ℕ)
    (hnm : ns.friendlyName = some nm)
    (hhome : someoneHome cfg states = Except.ok false)
    (hdfz : computeDistanceFromZone cfg dist ns = Except.ok dfz)
    (hpeer : peerLoop cfg dist states entity dfz = Except.ok (false, n))
    (hn : n ≠ 0) :
    check_proximity_dev_state_change cfg dist states entity oldState (some ns) =
      Except.ok { published := none, someoneIsHome := false,
                  deviceInOverrideZone := cfg.overrideZones.contains ns.state,
                  deviceIsClosest := false, devicesCompared := n,
                  distanceFromZone := dfz, directionOfTravel := "not set" } := by
  obtain ⟨m, rfl⟩ := Nat.exists_eq_succ_of_ne_zero hn
  have hdir : computeDirection cfg dist oldState ns.latitude ns.longitude false (m + 1) =
      Except.ok "not set" := by
    rw [computeDirection.eq_def, if_neg (by simp)]
  simp [check_proximity_dev_state_change, getNewSt, getEntityName, hnm, hhome, hdfz,
    hpeer, hdir, publish]

theorem c7_not_closest_is_noop_witness :
    check_proximity_dev_state_change cfgW7 testDist statesW7 "a" none (some nsW7) =
      Except.ok { published := none, someoneIsHome := false,
                  deviceInOverrideZone := cfgW7.overrideZones.contains nsW7.state,
                  deviceIsClosest := false, devicesCompared := 1,
                  distanceFromZone := 5, directionOfTravel := "not set" } :=
  c7_not_closest_is_noop cfgW7 testDist statesW7 "a" none nsW7 "A" 5 1
    rfl rfl
    (by simp [computeDistanceFromZone, callDist, cfgW7, nsW7, pyRound1_testDist_5000])
    (by simp +decide [peerLoop, peerFold, comparePeer, pyStateMemOverride_false, callDist,
      cfgW7, statesW7, nsW7, pyRound1_testDist_5000, pyRound1_testDist_1000])
    (by decide)

/-- C8 counterexample.  The claim allows a directed label only when the
source is the nearest non-override source or no peers were comparable.
Here two peers are compared and `a` TIES with peer `b1` at 5.0 km (last
conjunct: `b1`'s compared distance equals `a`'s), so `a` is not strictly
nearest; yet because the flag is overwritten by the comparison against the
farther `b2`, the evaluation publishes direction `towards`. -/
theorem c8_counterexample_towards_despite_tie :
    check_proximity_dev_state_change cfgC1 testDist statesC1 "a" (some oldC8) (statesC1 "a") =
      Except.ok outC8 ∧
    pyRound1 (testDist 0 0 5000 0 / 1000) = 5 := by
  constructor
  · simp +decide [check_proximity_dev_state_change, getNewSt, getEntityName, someoneHome,
      someoneHomeFold, computeDistanceFromZone, callDist, peerLoop, peerFold, comparePeer,
      pyStateMemOverride_false, computeDirection, publish, cfgC1, statesC1, nsC1, oldC8,
      outC8, pyRound1_testDist_5000, pyRound1_testDist_10000, pyRound1_towards_delta,
      directionFromDelta_neg5000]
  · exact pyRound1_testDist_5000

/-- C8 (amended).  A published direction of `towards` or `away_from`
requires both a previous and a current location for the evaluated source
AND that the comparison loop left the closest flag set (or compared no
peer); the flag, however, is the overwritten per-iteration value, not
"strictly nearest among non-override peers". -/
theorem c8_directed_requires_both_samples_amended (cfg : Config)
    (dist : ℚ → ℚ → ℚ → ℚ → ℚ) (states : String → Option PyState)
    (entity : String) (oldState : Option PyState) (ns : PyState) (nm : String)
    (dfz : ℚ) (cl : Bool) (n : ℕ) (dir : String)
    (hnm : ns.friendlyName = some nm)
    (hhome : someoneHome cfg states = Except.ok false)
    (hdfz : computeDistanceFromZone cfg dist ns = Except.ok dfz)
    (hpeer : peerLoop cfg dist states entity dfz = Except.ok (cl, n))
    (hdir : computeDirection cfg dist oldState ns.latitude ns.longitude cl n =
      Except.ok dir) :
    ∀ out r, check_proximity_dev_state_change cfg dist states entity oldState (some ns) =
        Except.ok out → out.published = some r →
      (r.dirOfTravel = "towards" ∨ r.dirOfTravel = "away_from") →
      (out.deviceIsClosest = true ∨ out.devicesCompared = 0) ∧
      ns.latitude.isSome = true ∧ ns.longitude.isSome = true ∧
      ∃ os, oldState = some os ∧ os.latitude.isSome = true ∧
        os.longitude.isSome = true := by
  have heval : check_proximity_dev_state_change cfg dist states entity oldState (some ns) =
      Except.ok { published := publish (cfg.overrideZones.contains ns.state) cl n dfz dir nm,
                  someoneIsHome := false,
                  deviceInOverrideZone := cfg.overrideZones.contains ns.state,
                  deviceIsClosest := cl, devicesCompared := n,
                  distanceFromZone := dfz, directionOfTravel := dir } := by
    simp [check_proximity_dev_state_change, getNewSt, getEntityName, hnm, hhome, hdfz,
      hpeer, hdir]
  intro out r ho hr hd
  rw [heval] at ho
  obtain rfl := (Except.ok.inj ho).symm
  replace hr : publish (cfg.overrideZones.contains ns.state) cl n dfz dir nm = some r := hr
  have hrd : r.dirOfTravel = dir := by
    rw [publish] at hr
    by_cases h1 : (!(cfg.overrideZones.contains ns.state) && (n == 0)) = true
    · rw [if_pos h1] at hr
      obtain rfl := (Option.some.inj hr).symm
      rfl
    · rw [if_neg h1] at hr
      by_cases h2 : cl = true
      · rw [if_pos h2] at hr
        obtain rfl := (Option.some.inj hr).symm
        rfl
      · rw [if_neg h2] at hr
        exact absurd hr (by simp)
  rw [hrd] at hd
  obtain ⟨hg, hnla, hnlo, os, hos, hola, holo⟩ :=
    computeDirection_directed cfg dist oldState ns.latitude ns.longitude cl n dir hdir hd
  exact ⟨hg, hnla, hnlo, os, hos, hola, holo⟩

theorem c8_directed_requires_both_samples_amended_witness :
    (outC8.deviceIsClosest = true ∨ outC8.devicesCompared = 0) ∧
    nsC1.latitude.isSome = true ∧ nsC1.longitude.isSome = true ∧
    ∃ os, (some oldC8 : Option PyState) = some os ∧ os.latitude.isSome = true ∧
      os.longitude.isSome = true :=
  c8_directed_requires_both_samples_amended cfgC1 testDist statesC1 "a" (some oldC8)
    nsC1 "A" 5 true 2 "towards"
    rfl rfl
    (by simp [computeDistanceFromZone, callDist, cfgC1, nsC1, pyRound1_testDist_5000])
    (by simp +decide [peerLoop, peerFold, comparePeer, pyStateMemOverride_false, callDist,
      cfgC1, statesC1, nsC1, pyRound1_testDist_5000, pyRound1_testDist_10000])
    (by simp [computeDirection, nsC1, oldC8, callDist, cfgC1, pyRound1_towards_delta,
      directionFromDelta_neg5000])
    outC8 ⟨5, "towards", "A"⟩
    (by simp +decide [check_proximity_dev_state_change, getNewSt, getEntityName, someoneHome,
      someoneHomeFold, computeDistanceFromZone, callDist, peerLoop, peerFold, comparePeer,
      pyStateMemOverride_false, computeDirection, publish, cfgC1, statesC1, nsC1, oldC8,
      outC8, pyRound1_testDist_5000, pyRound1_testDist_10000, pyRound1_towards_delta,
      directionFromDelta_neg5000])
    rfl (Or.inl rfl)

/-- C9.  The callback dereferences `new_state.attributes` at src line 110
before its own `new_state == None` check at line 117, so an update event
with no new state raises `AttributeError` for every configuration — the
evaluation is not total. -/
theorem c9_none_new_state_raises (cfg : Config) (dist : ℚ → ℚ → ℚ → ℚ → ℚ)
    (states : String → Option PyState) (entity : String) (oldState : Option PyState) :
    check_proximity_dev_state_change cfg dist states entity oldState none =
      Except.error "AttributeError" := rfl

/-- C10.  The `direction_of_travel` and `nearest_device` properties of the
`Proximity` entity both return the stored `_dist_from` value, whatever the
stored direction and nearest-device fields hold. -/
theorem c10_accessors_return_dist_from {α : Type} (d x y : α) :
    (Proximity.mk d x y).direction_of_travel = d ∧
    (Proximity.mk d x y).nearest_device = d ∧
    (Proximity.mk d x y).dir_of_travel_val = x ∧
    (Proximity.mk d x y).nearest_device_val = y :=
  ⟨rfl, rfl, rfl, rfl⟩
